import Mathlib

/-!
Verification of the authentication and authorization core of a blog backend
(`auth.py` together with the user-lookup helpers of `crud.py`).

Shallow embedding conventions:
* Machine time (`datetime.utcnow()`) is an explicit `now : Nat` parameter,
  counted in seconds since the epoch, matching the `exp` claim wire format.
* The process-wide configuration read from the environment (`SECRET_KEY`,
  `ALGORITHM`, `ACCESS_TOKEN_EXPIRE_MINUTES`) is an explicit `Config` value.
* The identity store is a `List User`; the SQLAlchemy call `.filter(...).first()`
  becomes `List.find?`.
* A raised `HTTPException` becomes `Except HTTPError`; Python functions that
  return `T` or `None` become `Option T`.
* The external `bcrypt` and `python-jose` libraries are modelled by idealized
  executable functions (`bcrypt_hashpw`, `bcrypt_checkpw`, `jwtDecode`); see
  the doc comments on those definitions.
-/

namespace FastApiAuth

/-- Process configuration of `auth.py` lines 28-30, read once from the
environment via `decouple.config` and immutable afterwards. -/
structure Config where
  SECRET_KEY : String
  ALGORITHM : String
  ACCESS_TOKEN_EXPIRE_MINUTES : Nat
  deriving DecidableEq, Repr

/-- A raised `fastapi.HTTPException`, reduced to the observable status code
and detail message (the `WWW-Authenticate: Bearer` header of the 401 response
carries no extra distinguishing information between the cases of the claims). -/
structure HTTPError where
  status : Nat
  detail : String
  deriving DecidableEq, Repr

/-! ### Model of the external bcrypt library

The repository calls three bcrypt primitives: `bcrypt.gensalt()` (a fresh
random salt per call), `bcrypt.hashpw(password, salt)` (a one-way salted
digest rendered into a self-describing `$2b$cost$salt+digest` string), and
`bcrypt.checkpw(password, stored)` (parse the stored string, recompute the
digest with the embedded cost and salt, constant-time compare; raises
`ValueError` on a malformed stored string).  We model the digest as an ideal
collision-free one-way function, represented by the password itself — the
model keeps exactly the equations bcrypt guarantees (same password and salt
give the same digest, different passwords give different digests) and the
failure behaviour (malformed stored strings raise). -/

/-- A well-formed bcrypt output string `$2b$cost$salt||digest`, as the record
of the data it self-describes. -/
structure BcryptRecord where
  cost : Nat
  salt : Nat
  digest : String
  deriving DecidableEq, Repr

/-- A stored password-hash string: either a well-formed bcrypt string or any
other (malformed / non-bcrypt) string, on which `bcrypt.checkpw` raises. -/
inductive StoredHash where
  | fromBcrypt (r : BcryptRecord)
  | malformed (raw : String)
  deriving DecidableEq, Repr

/-- Ideal model of the bcrypt key-derivation digest: collision-free in the
password for a fixed cost and salt, represented by the password itself. -/
def bcryptDigest (password : String) (_cost _salt : Nat) : String :=
  password

/-- `bcrypt.gensalt()`: a fresh salt per call, modelled by threading a nonce
that is distinct across calls. -/
def bcrypt_gensalt (nonce : Nat) : Nat :=
  nonce

/-- `bcrypt.hashpw(password, salt)` with the default cost factor 12. -/
def bcrypt_hashpw (password : String) (salt : Nat) : BcryptRecord :=
  { cost := 12, salt := salt, digest := bcryptDigest password 12 salt }

/-- `bcrypt.checkpw(password, stored)`: parse the stored string (raising,
modelled as `Except.error`, when it is malformed), recompute the digest with
the embedded cost and salt, and compare. -/
def bcrypt_checkpw (password : String) (stored : StoredHash) : Except String Bool :=
  match stored with
  | StoredHash.malformed raw => Except.error raw
  | StoredHash.fromBcrypt r => Except.ok (bcryptDigest password r.cost r.salt == r.digest)

/-- `auth.py` lines 37-46: `verify_password_bcrypt`.  The `try`/`except`
around encoding and `bcrypt.checkpw` turns every internal error into the
result `False`. -/
def verify_password_bcrypt (plain_password : String) (hashed_password : StoredHash) : Bool :=
  match bcrypt_checkpw plain_password hashed_password with
  | Except.ok b => b
  | Except.error _ => false

/-- `auth.py` lines 48-55: `get_password_hash_bcrypt`, hashing with a fresh
salt (`bcrypt.gensalt()` modelled by the per-call nonce). -/
def get_password_hash_bcrypt (password : String) (nonce : Nat) : StoredHash :=
  StoredHash.fromBcrypt (bcrypt_hashpw password (bcrypt_gensalt nonce))

/-- `auth.py` lines 63-75: `verify_password` delegates to
`verify_password_bcrypt`. -/
def verify_password (plain_password : String) (hashed_password : StoredHash) : Bool :=
  verify_password_bcrypt plain_password hashed_password

/-- `auth.py` lines 77-88: `get_password_hash` delegates to
`get_password_hash_bcrypt`. -/
def get_password_hash (password : String) (nonce : Nat) : StoredHash :=
  get_password_hash_bcrypt password nonce

/-- The user record of `models.py` (`class User`), restricted to the columns
the authentication core reads: `id`, `username`, `email`, `full_name`
(nullable), `hashed_password`, `is_active`, `is_superuser`. -/
structure User where
  id : Nat
  username : String
  email : String
  full_name : Option String
  hashed_password : StoredHash
  is_active : Bool
  is_superuser : Bool
  deriving DecidableEq, Repr

/-! ### User lookups (`crud.py`) -/

/-- `crud.py` `get_user_by_username`: `db.query(User).filter(User.username ==
username).first()`. -/
def get_user_by_username (db : List User) (username : String) : Option User :=
  db.find? (fun u => u.username == username)

/-- `crud.py` `get_user_by_email`: `db.query(User).filter(User.email ==
email).first()`. -/
def get_user_by_email (db : List User) (email : String) : Option User :=
  db.find? (fun u => u.email == email)

/-! ### Model of the external python-jose JWT library -/

/-- The claim set carried by a token payload, as the repository uses it: the
`sub` claim (absent when the dict has no `"sub"` key) and the `exp` claim in
seconds since the epoch (absent when never set). -/
structure Payload where
  sub : Option String
  exp : Option Nat
  deriving DecidableEq, Repr

/-- A token string: either a well-formed three-part compact JWT — its payload
together with the key and algorithm it was signed with — or any other
(structurally malformed) string. -/
inductive Token where
  | signed (payload : Payload) (key : String) (alg : String)
  | malformed (raw : String)
  deriving DecidableEq, Repr

/-- `jose.jwt.decode(token, key, algorithms=[alg])`: verifies the signature
(the token was signed with `key` using an algorithm in the allowed list) and
then validates the `exp` claim with zero leeway — a present `exp` strictly
below the current time raises `ExpiredSignatureError`; a missing `exp` is not
validated.  Every failure raises a subclass of `JWTError`, modelled here as
`none`. -/
def jwtDecode (token : Token) (key : String) (alg : String) (now : Nat) : Option Payload :=
  match token with
  | Token.malformed _ => none
  | Token.signed p k a =>
    if k = key ∧ a = alg then
      match p.exp with
      | none => some p
      | some e => if e < now then none else some p
    else none

/-! ### Token codec (`auth.py`) -/

/-- `auth.py` lines 115-140: `create_access_token`.  Copies the claim dict of the caller, overwrites `exp` with `now + expires_delta` (or the configured
default of `ACCESS_TOKEN_EXPIRE_MINUTES` minutes), and signs with the
process secret and algorithm.  `expires_delta` is in seconds. -/
def create_access_token (cfg : Config) (now : Nat) (data : Payload)
    (expires_delta : Option Nat) : Token :=
  let expire : Nat :=
    match expires_delta with
    | some d => now + d
    | none => now + cfg.ACCESS_TOKEN_EXPIRE_MINUTES * 60
  Token.signed { data with exp := some expire } cfg.SECRET_KEY cfg.ALGORITHM

/-- `auth.py` lines 142-166: `verify_token`.  Decodes the token (the
`try`/`except JWTError` collapses every decode failure into `None`), then
returns `payload.get("sub")`, which is `None` exactly when the claim is
absent. -/
def verify_token (cfg : Config) (now : Nat) (token : Token) : Option String :=
  match jwtDecode token cfg.SECRET_KEY cfg.ALGORITHM now with
  | none => none
  | some payload => payload.sub

/-! ### Access guard (`auth.py`) -/

/-- The `credentials_exception` of `auth.py` lines 188-192: HTTP 401 with a
fixed detail, raised identically for an undecodable token and for a subject
with no matching user. -/
def credentials_exception : HTTPError :=
  { status := 401, detail := "无法验证凭据" }

/-- The HTTP 400 failure of `auth.py` lines 224-227, raised when the
`is_active` flag of the resolved user is false. -/
def inactive_exception : HTTPError :=
  { status := 400, detail := "用户账户已被禁用" }

/-- `auth.py` lines 168-204: `get_current_user`.  Verifies the bearer token;
on `None` raises `credentials_exception`; otherwise resolves the subject via
`get_user_by_username` and raises the same `credentials_exception` when no
user matches. -/
def get_current_user (cfg : Config) (db : List User) (now : Nat) (token : Token) :
    Except HTTPError User :=
  match verify_token cfg now token with
  | none => Except.error credentials_exception
  | some username =>
    match get_user_by_username db username with
    | none => Except.error credentials_exception
    | some user => Except.ok user

/-- `auth.py` lines 206-228: `get_current_active_user`.  Raises the HTTP 400
disabled-account failure when `is_active` is false, otherwise passes the user
through unchanged. -/
def get_current_active_user (current_user : User) : Except HTTPError User :=
  if !current_user.is_active then
    Except.error inactive_exception
  else
    Except.ok current_user

/-- The dependency chain `get_current_user` → `get_current_active_user` as
FastAPI composes it for a protected route: stage 1 then stage 2. -/
def get_current_active_user_chain (cfg : Config) (db : List User) (now : Nat)
    (token : Token) : Except HTTPError User :=
  match get_current_user cfg db now token with
  | Except.error e => Except.error e
  | Except.ok user => get_current_active_user user

/-! ### Credential verifier and session issuer (`auth.py`) -/

/-- `auth.py` lines 90-113: `authenticate_user`.  Username lookup first, a
single email-lookup fallback, then `None` when no user was found or the
password does not verify. -/
def authenticate_user (db : List User) (username password : String) : Option User :=
  let user := get_user_by_username db username
  let user :=
    match user with
    | some u => some u
    | none => get_user_by_email db username
  match user with
  | none => none
  | some u =>
    if !verify_password password u.hashed_password then none
    else some u

/-- The `"user"` sub-dict of the `create_user_token` response: exactly the
six listed fields, no password hash. -/
structure UserSummary where
  id : Nat
  username : String
  email : String
  full_name : Option String
  is_active : Bool
  is_superuser : Bool
  deriving DecidableEq, Repr

/-- The dict returned by `create_user_token`. -/
structure TokenResponse where
  access_token : Token
  token_type : String
  expires_in : Nat
  user : UserSummary
  deriving DecidableEq, Repr

/-- `auth.py` lines 254-282: `create_user_token`.  Mints a token with
`sub = user.username` and `expires_delta = ACCESS_TOKEN_EXPIRE_MINUTES`
minutes, and returns it with the fixed `"bearer"` type, the ttl in seconds,
and the six-field user summary. -/
def create_user_token (cfg : Config) (now : Nat) (user : User) : TokenResponse :=
  let access_token_expires := cfg.ACCESS_TOKEN_EXPIRE_MINUTES * 60
  let access_token :=
    create_access_token cfg now { sub := some user.username, exp := none }
      (some access_token_expires)
  { access_token := access_token
    token_type := "bearer"
    expires_in := cfg.ACCESS_TOKEN_EXPIRE_MINUTES * 60
    user :=
      { id := user.id
        username := user.username
        email := user.email
        full_name := user.full_name
        is_active := user.is_active
        is_superuser := user.is_superuser } }

/-! ### Permission check (`auth.py`) -/

/-- `auth.py` lines 286-301: `check_user_permission`, `user.is_superuser or
user.id == resource_owner_id`. -/
def check_user_permission (user : User) (resource_owner_id : Nat) : Bool :=
  user.is_superuser || user.id == resource_owner_id

/-! ### Concrete example values used by the witness instances -/

/-- An example configuration, standing for a concrete environment. -/
def cfgEx : Config :=
  { SECRET_KEY := "secret", ALGORITHM := "HS256", ACCESS_TOKEN_EXPIRE_MINUTES := 30 }

/-- The inactive user of the disabled-account scenario of the spec. -/
def bobEx : User :=
  { id := 2, username := "bob", email := "bob@example.com", full_name := none,
    hashed_password := get_password_hash_bcrypt "bobpw" 7,
    is_active := false, is_superuser := false }

/-- A well-signed, unexpired token for `bobEx` under `cfgEx`. -/
def bobTokenEx : Token :=
  Token.signed { sub := some "bob", exp := some 100 } "secret" "HS256"

/-! ## Theorems -/

/-- Claim C2: `check_user_permission` allows exactly when the identity is a
superuser or owns the resource; it is a pure function of these two inputs
(immediate from its embedding as a Lean function). -/
theorem check_user_permission_iff (u : User) (oid : Nat) :
    check_user_permission u oid = true ↔ (u.is_superuser = true ∨ u.id = oid) := by
  simp [check_user_permission]

/-- Claim C6: hashing a secret and verifying it succeeds, and two hash calls
(with the fresh salts `bcrypt.gensalt` guarantees, modelled by distinct
nonces) give two different stored hashes that both verify the secret. -/
theorem password_hash_roundtrip_fresh_salt (s : String) (n1 n2 : Nat) (h : n1 ≠ n2) :
    verify_password_bcrypt s (get_password_hash_bcrypt s n1) = true ∧
    verify_password_bcrypt s (get_password_hash_bcrypt s n2) = true ∧
    get_password_hash_bcrypt s n1 ≠ get_password_hash_bcrypt s n2 := by
  refine ⟨?_, ?_, ?_⟩
  · simp [verify_password_bcrypt, bcrypt_checkpw, get_password_hash_bcrypt, bcrypt_hashpw]
  · simp [verify_password_bcrypt, bcrypt_checkpw, get_password_hash_bcrypt, bcrypt_hashpw]
  · intro hc
    simp [get_password_hash_bcrypt, bcrypt_hashpw, bcrypt_gensalt] at hc
    exact h hc.1

/-- Claim C6 witness: the round-trip and freshness properties at the secret
`"pw"` with two distinct salts. -/
theorem password_hash_roundtrip_fresh_salt_witness :
    verify_password_bcrypt "pw" (get_password_hash_bcrypt "pw" 0) = true ∧
    verify_password_bcrypt "pw" (get_password_hash_bcrypt "pw" 1) = true ∧
    get_password_hash_bcrypt "pw" 0 ≠ get_password_hash_bcrypt "pw" 1 :=
  password_hash_roundtrip_fresh_salt "pw" 0 1 (by decide)

/-- Claim C8: password verification is total and collapses every internal
bcrypt error into the plain boolean `false`: any raising `bcrypt.checkpw`
call (in particular any malformed stored hash) yields `false`, a `true`
result only arises from a successful match, and the public `verify_password`
is exactly `verify_password_bcrypt`. -/
theorem verify_password_no_error_leak (pw : String) (h : StoredHash) :
    (∀ e, bcrypt_checkpw pw h = Except.error e → verify_password pw h = false) ∧
    (verify_password pw h = true → bcrypt_checkpw pw h = Except.ok true) ∧
    (∀ raw, verify_password pw (StoredHash.malformed raw) = false) ∧
    verify_password pw h = verify_password_bcrypt pw h := by
  refine ⟨?_, ?_, ?_, rfl⟩
  · intro e he
    simp [verify_password, verify_password_bcrypt, he]
  · intro ht
    cases h with
    | malformed raw => simp [verify_password, verify_password_bcrypt, bcrypt_checkpw] at ht
    | fromBcrypt r =>
      simp [verify_password, verify_password_bcrypt, bcrypt_checkpw] at ht ⊢
      exact ht
  · intro raw
    simp [verify_password, verify_password_bcrypt, bcrypt_checkpw]

/-- Claim C8 witness: a malformed (non-bcrypt) stored hash string verifies to
`false` rather than raising. -/
theorem verify_password_no_error_leak_witness :
    verify_password "secret" (StoredHash.malformed "not-a-bcrypt-hash") = false :=
  (verify_password_no_error_leak "secret" (StoredHash.malformed "not-a-bcrypt-hash")).1
    "not-a-bcrypt-hash" rfl

/-- Claim C9: the session response has the fixed literal `"bearer"` token
type, an `expires_in` of the configured ttl in seconds, the token itself
expiring exactly `expires_in` seconds from now under the same configuration,
a user summary holding exactly the six public identity fields, and a result
that is entirely independent of the stored password hash; no active-flag
check is performed (the equations hold for every user). -/
theorem create_user_token_spec (cfg : Config) (now : Nat) (u : User) (hp : StoredHash) :
    (create_user_token cfg now u).token_type = "bearer" ∧
    (create_user_token cfg now u).expires_in = cfg.ACCESS_TOKEN_EXPIRE_MINUTES * 60 ∧
    (create_user_token cfg now u).user =
      { id := u.id, username := u.username, email := u.email,
        full_name := u.full_name, is_active := u.is_active,
        is_superuser := u.is_superuser } ∧
    (create_user_token cfg now u).access_token =
      Token.signed
        { sub := some u.username,
          exp := some (now + (create_user_token cfg now u).expires_in) }
        cfg.SECRET_KEY cfg.ALGORITHM ∧
    create_user_token cfg now { u with hashed_password := hp } = create_user_token cfg now u :=
  ⟨rfl, rfl, rfl, rfl, rfl⟩

/-- Claim C1: `verify_token` returns the invalid result `none`, never a
subject and never a distinguishing error (its codomain is `Option String`),
for every structurally malformed token, every token whose `exp` claim lies in
the past, and every token signed with a key other than the configured secret;
conversely a returned subject certifies the configured key and algorithm, an
unexpired `exp` claim, and that the subject is the `sub` claim of the payload. -/
theorem verify_token_rejects_expired_or_missigned
    (cfg : Config) (now : Nat) (p : Payload) (k a raw : String) :
    verify_token cfg now (Token.malformed raw) = none ∧
    ((∃ e, p.exp = some e ∧ e < now) → verify_token cfg now (Token.signed p k a) = none) ∧
    (k ≠ cfg.SECRET_KEY → verify_token cfg now (Token.signed p k a) = none) ∧
    (∀ s, verify_token cfg now (Token.signed p k a) = some s →
      k = cfg.SECRET_KEY ∧ a = cfg.ALGORITHM ∧ p.sub = some s ∧
      ∀ e, p.exp = some e → ¬ e < now) := by
  refine ⟨rfl, ?_, ?_, ?_⟩
  · rintro ⟨e, he, hlt⟩
    simp [verify_token, jwtDecode, he, hlt]
  · intro hk
    simp [verify_token, jwtDecode, hk]
  · intro s hs
    simp only [verify_token, jwtDecode] at hs
    by_cases hka : k = cfg.SECRET_KEY ∧ a = cfg.ALGORITHM
    · rw [if_pos hka] at hs
      refine ⟨hka.1, hka.2, ?_, ?_⟩
      · cases hp : p.exp with
        | none => simp [hp] at hs; exact hs
        | some e =>
          by_cases hlt : e < now
          · simp [hp, hlt] at hs
          · simp [hp, hlt] at hs; exact hs
      · intro e hp hlt
        simp [hp, hlt] at hs
    · rw [if_neg hka] at hs
      exact Option.noConfusion hs

/-- Claim C1 witness: a token whose expiry (5) is before the verification
time (10) is rejected even though it is signed with the configured key and
algorithm. -/
theorem verify_token_rejects_expired_or_missigned_witness :
    verify_token cfgEx 10
      (Token.signed ⟨some "alice", some 5⟩ "secret" "HS256") = none :=
  (verify_token_rejects_expired_or_missigned cfgEx 10
    ⟨some "alice", some 5⟩ "secret" "HS256" "").2.1 ⟨5, rfl, by decide⟩

/-- Claim C7: a token issued by `create_access_token` with subject
`u.username` — for any ttl, including the configured default — verifies
immediately (at the issuing instant) to exactly `u.username`. -/
theorem issue_then_verify_roundtrip (cfg : Config) (now : Nat) (u : User)
    (delta : Option Nat) :
    verify_token cfg now
      (create_access_token cfg now { sub := some u.username, exp := none } delta) =
      some u.username := by
  cases delta with
  | none => simp [verify_token, create_access_token, jwtDecode]
  | some d => simp [verify_token, create_access_token, jwtDecode]

/-- Claim C10: a token signed with the configured key and algorithm whose
expiry has not passed but whose payload carries no `sub` claim verifies to
`none` — never a default subject and never an error. -/
theorem verify_token_missing_sub (cfg : Config) (now : Nat) (p : Payload)
    (hsub : p.sub = none) (hexp : ∀ e, p.exp = some e → ¬ e < now) :
    verify_token cfg now (Token.signed p cfg.SECRET_KEY cfg.ALGORITHM) = none := by
  cases hp : p.exp with
  | none => simp [verify_token, jwtDecode, hp, hsub]
  | some e => simp [verify_token, jwtDecode, hp, hsub, hexp e hp]

/-- Claim C10 witness: a well-signed token with expiry 100, verified at time
50, whose payload has no `sub` claim, yields `none`. -/
theorem verify_token_missing_sub_witness :
    verify_token cfgEx 50
      (Token.signed ⟨none, some 100⟩ "secret" "HS256") = none :=
  verify_token_missing_sub cfgEx 50 ⟨none, some 100⟩ rfl
    (fun e he => by cases he; decide)

/-- Claim C3: `authenticate_user` resolves by username first — when the
username lookup hits, the email lookup is never consulted and the result is
determined by that user alone; it falls back to a single email lookup only
when the username lookup misses; it returns `none` both when no identity is
found and when the password fails to verify (both failures are the identical
value `none`); and a returned identity always passed password verification,
with no condition on the `is_active` flag anywhere. -/
theorem authenticate_user_spec (db : List User) (login pw : String) :
    (∀ u, get_user_by_username db login = some u →
      authenticate_user db login pw =
        if verify_password pw u.hashed_password then some u else none) ∧
    (get_user_by_username db login = none →
      ∀ u, get_user_by_email db login = some u →
        authenticate_user db login pw =
          if verify_password pw u.hashed_password then some u else none) ∧
    (get_user_by_username db login = none → get_user_by_email db login = none →
      authenticate_user db login pw = none) ∧
    (∀ u, authenticate_user db login pw = some u →
      verify_password pw u.hashed_password = true) := by
  refine ⟨?_, ?_, ?_, ?_⟩
  · intro u hu
    simp only [authenticate_user, hu]
    cases hv : verify_password pw u.hashed_password <;> simp [hv]
  · intro hn u he
    simp only [authenticate_user, hn, he]
    cases hv : verify_password pw u.hashed_password <;> simp [hv]
  · intro hn he
    simp [authenticate_user, hn, he]
  · intro u hu
    simp only [authenticate_user] at hu
    cases hn : get_user_by_username db login with
    | some v =>
      rw [hn] at hu
      cases hv : verify_password pw v.hashed_password <;> simp [hv] at hu
      exact hu ▸ hv
    | none =>
      rw [hn] at hu
      cases he : get_user_by_email db login with
      | none => rw [he] at hu; exact Option.noConfusion hu
      | some v =>
        rw [he] at hu
        cases hv : verify_password pw v.hashed_password <;> simp [hv] at hu
        exact hu ▸ hv

/-- Claim C3 witness: on an empty identity store, an unknown login identifier
authenticates to `none`. -/
theorem authenticate_user_spec_witness :
    authenticate_user [] "alice" "pw" = none :=
  (authenticate_user_spec [] "alice" "pw").2.2.1 rfl rfl

/-- Claim C4: `get_current_user` raises the one `credentials_exception` both
when token verification fails and when the verified subject matches no stored
user, so the two cases are observably identical; and a successfully returned
user always comes from resolving the verified subject through the username
lookup — never a default. -/
theorem get_current_user_failure_cases (cfg : Config) (db : List User) (now : Nat)
    (tok : Token) :
    (verify_token cfg now tok = none →
      get_current_user cfg db now tok = Except.error credentials_exception) ∧
    (∀ s, verify_token cfg now tok = some s → get_user_by_username db s = none →
      get_current_user cfg db now tok = Except.error credentials_exception) ∧
    (∀ u, get_current_user cfg db now tok = Except.ok u →
      ∃ s, verify_token cfg now tok = some s ∧ get_user_by_username db s = some u) := by
  refine ⟨?_, ?_, ?_⟩
  · intro hv
    simp [get_current_user, hv]
  · intro s hv hn
    simp [get_current_user, hv, hn]
  · intro u hu
    simp only [get_current_user] at hu
    cases hv : verify_token cfg now tok with
    | none => simp [hv] at hu
    | some s =>
      simp only [hv] at hu
      cases hn : get_user_by_username db s with
      | none => simp [hn] at hu
      | some v =>
        simp [hn] at hu
        exact ⟨s, rfl, by rw [hn, hu]⟩

/-- Claim C4 witness: a malformed token on an empty store is rejected with
the authentication failure. -/
theorem get_current_user_failure_cases_witness :
    get_current_user cfgEx [] 0 (Token.malformed "garbage") =
      Except.error credentials_exception :=
  (get_current_user_failure_cases cfgEx [] 0 (Token.malformed "garbage")).1 rfl

/-- Claim C5: whenever stage 1 (`get_current_user`) passes a user, stage 2
(`get_current_active_user`) rejects with the distinct HTTP 400
disabled-account failure exactly when the active flag of the user is false, and
passes the user through unchanged when it is true; the disabled failure is a
different value from the stage-1 authentication failure. -/
theorem active_guard_stage_two (cfg : Config) (db : List User) (now : Nat)
    (tok : Token) (u : User) :
    get_current_user cfg db now tok = Except.ok u →
    ((u.is_active = false →
        get_current_active_user_chain cfg db now tok = Except.error inactive_exception ∧
        inactive_exception ≠ credentials_exception) ∧
     (u.is_active = true →
        get_current_active_user_chain cfg db now tok = Except.ok u)) := by
  intro h
  constructor
  · intro ha
    refine ⟨?_, ?_⟩
    · simp [get_current_active_user_chain, h, get_current_active_user, ha]
    · intro hc
      have : (400 : Nat) = 401 := congrArg HTTPError.status hc
      exact absurd this (by decide)
  · intro ha
    simp [get_current_active_user_chain, h, get_current_active_user, ha]

/-- Claim C5 witness: the scenario from the spec — inactive `bob` (id 2) presents a
well-signed unexpired token; stage 1 yields `bob` and the composed guard
rejects with the disabled-account failure. -/
theorem active_guard_stage_two_witness :
    get_current_active_user_chain cfgEx [bobEx] 0 bobTokenEx =
      Except.error inactive_exception :=
  ((active_guard_stage_two cfgEx [bobEx] 0 bobTokenEx bobEx (by rfl)).1 rfl).1

end FastApiAuth
